import Mathlib

/-!
# Verification of the `sds` service-registry server (`src/server.rs`)

Shallow embedding of the HTTP dispatch layer and request handlers of
`src/server.rs`.  External collaborators (the `hyper` HTTP stack, `serde`
(de)serialization, the system clock, and the `Storage` backend whose
implementation lives outside the visible source) are embedded as explicit
parameters/oracles; the handler and routing logic itself is translated
from the source line by line.

The URI path of a request is embedded as its list of characters; the two
route regexes of the source are embedded as executable matchers over that
list.  Machine integers (`u16` ports, `u64` epoch seconds) are embedded as
`Nat` with an explicit `% 2 ^ 64` where the source performs `u64` addition.
-/

namespace SDS

/-- Tag map of a host (`types::Tag`, a string-keyed label map; the `types.rs`
file is not part of the visible source, its shape is given by the spec). -/
abbrev Tag := List (String × String)

/-- Modelled from the spec: the `Host` record of `types.rs` (not in the
visible source); its fields are exactly the ones `convert_param_to_host`
in `src/server.rs` constructs, and the spec's §3 data model. -/
structure Host where
  ip_address : String
  port : Nat
  last_check_in : String
  expire_time : Nat
  revision : String
  service : String
  tags : Tag
  deriving DecidableEq, Repr

/-- `RegistrationParam` from `src/server.rs`: the POST body of a
registration request.  It has exactly these four fields; in particular it
carries no TTL-like field. -/
structure RegistrationParam where
  ip : String
  port : Nat
  revision : String
  tags : Tag
  deriving DecidableEq, Repr

/-- Modelled from the spec: the `Registration` read model of `types.rs`
(not in the visible source); shape `{service, env, hosts}` per spec §3,
constructed field-by-field in `get_registration`. -/
structure Registration where
  service : String
  env : String
  hosts : List Host
  deriving DecidableEq, Repr

/-- `ErrorId` from `src/server.rs`. -/
inductive ErrorId where
  | HostNotFound
  deriving DecidableEq, Repr

/-- `ErrorResponse` from `src/server.rs`. -/
structure ErrorResponse where
  id : ErrorId
  reason : String
  deriving DecidableEq, Repr

/-- Modelled from the spec: the `DiscoveryRequest` of `v2xds.rs` (not in
the visible source); the handler reads exactly its `resource_names` field,
and the spec gives the wire shape `{resource_names: [service,...]}`. -/
structure DiscoveryRequest where
  resource_names : List String
  deriving DecidableEq, Repr

/-- Modelled from the spec: one weighted endpoint `{address, weight, health}`
of the xDS translation (`v2xds.rs` is not in the visible source). -/
structure LbEndpoint where
  address : String
  weight : Nat
  health : String
  deriving DecidableEq, Repr

/-- Modelled from the spec: one locality group of endpoints produced by the
xDS translation (`v2xds.rs` is not in the visible source). -/
structure LocalityLbEndpoints where
  locality : String
  lb_endpoints : List LbEndpoint
  deriving DecidableEq, Repr

/-- `ClusterLoadAssignment` as constructed in `get_registration_v2`:
`{type_url, cluster_name, endpoints}` (struct declared in `v2xds.rs`,
fields fixed by the construction site in `src/server.rs`). -/
structure ClusterLoadAssignment where
  type_url : String
  cluster_name : String
  endpoints : List LocalityLbEndpoints
  deriving DecidableEq, Repr

/-- `EdsDiscoveryResponse` as constructed in `get_registration_v2`. -/
structure EdsDiscoveryResponse where
  version_info : String
  resources : List ClusterLoadAssignment
  deriving DecidableEq, Repr

/-- Modelled from the spec: the EDS type URL constant `EDS_TYPE_URL` of
`v2xds.rs` (not in the visible source); its exact value is irrelevant to
every claim, only that it is a fixed constant. -/
def EDS_TYPE_URL : String := "type.googleapis.com/envoy.api.v2.ClusterLoadAssignment"

/-- Modelled from the spec: locality key of a host — a designated tag (here
`"az"`), hosts lacking it fall into one shared default locality (spec §4.3
step 1; `v2xds.rs` is not in the visible source). -/
def hostLocality (h : Host) : String :=
  match h.tags.lookup ("az") with
  | some z => z
  | none => "default"

/-- Modelled from the spec: endpoint descriptor `{address: ip:port,
weight 1, health "healthy"}` (spec §4.3 step 3; `v2xds.rs` is not in the
visible source). -/
def hostEndpoint (h : Host) : LbEndpoint :=
  { address := h.ip_address ++ ":" ++ toString h.port
    weight := 1
    health := "healthy" }

/-- Modelled from the spec: `hosts_to_locality_lb_endpoints` of `v2xds.rs`
(not in the visible source) — group the already expiry-filtered hosts by
locality key deterministically and emit a weighted endpoint per host
(spec §4.3 steps 1–3).  A service with zero hosts yields zero localities. -/
def hosts_to_locality_lb_endpoints (hosts : List Host) : List LocalityLbEndpoints :=
  ((hosts.map hostLocality).dedup).map fun k =>
    { locality := k
      lb_endpoints := (hosts.filter (fun h => hostLocality h == k)).map hostEndpoint }

/-- Response bodies the server builds.  Serialization of a body to bytes is
external (`serde_json::to_string`, infallible on these shapes), so bodies
are kept structured. -/
inductive RespBody where
  | empty
  | text (s : String)
  | errorJson (e : ErrorResponse)
  | registrationJson (r : Registration)
  | edsJson (r : EdsDiscoveryResponse)
  deriving DecidableEq, Repr

/-- An HTTP response: status code plus structured body. -/
structure HttpResponse where
  status : Nat
  body : RespBody
  deriving DecidableEq, Repr

/-- A call made by a handler into the `Storage` backend, in order. -/
inductive StoreCall where
  | storeItem (service : String) (h : Host)
  | queryItems (service : String)
  | deleteItem (service : String) (ip : String) (port : Nat)
  deriving DecidableEq, Repr

/-- Outcome of reading and parsing a request body
(`str::from_utf8` then `serde_json::from_str`, both external): the body is
not valid UTF-8, not valid JSON of the expected shape (with serde's error
message), or parses to a value. -/
inductive ParseResult (α : Type) where
  | notUtf8
  | badJson (msg : String)
  | ok (a : α)
  deriving DecidableEq, Repr

/-- The system clock, embedded as an oracle:
`SystemTime::now().duration_since(UNIX_EPOCH)` can fail (clock before
epoch), `chrono::Utc::now().format(..)` yields the formatted timestamp. -/
structure Clock where
  nowEpochSecs : Except Unit Nat
  nowFormatted : String

/-- `build_400` from `src/server.rs`. -/
def build_400 (msg : String) : HttpResponse :=
  { status := 400, body := .text msg }

/-- `build_500` from `src/server.rs`. -/
def build_500 (msg : String) : HttpResponse :=
  { status := 500, body := .text msg }

/-- `res_404` from `src/server.rs`. -/
def res_404 : HttpResponse :=
  { status := 404, body := .empty }

/-- `convert_param_to_host` from `src/server.rs`: builds the `Host` to
store, with `expire_time = now-epoch-secs + ttl` (`u64` addition) and
fails iff the epoch time is unobtainable.  No field of `p` flows into
`expire_time`. -/
def convert_param_to_host (name : String) (p : RegistrationParam) (ttl : Nat)
    (clock : Clock) : Except Unit Host :=
  match clock.nowEpochSecs with
  | .error e => .error e
  | .ok secs =>
      .ok { ip_address := p.ip
            port := p.port
            last_check_in := clock.nowFormatted
            expire_time := (secs + ttl) % 2 ^ 64
            revision := p.revision
            service := name
            tags := p.tags }

/-- `register_hosts` from `src/server.rs`: parse the body, build the host,
store it; 400 on parse failure, 500 on time-source or store failure, 202
otherwise.  Returns the response together with the store calls made. -/
def register_hosts (storeRes : String → Host → Except String Unit) (ttl : Nat)
    (clock : Clock) (name : String) (body : ParseResult RegistrationParam) :
    HttpResponse × List StoreCall :=
  match body with
  | .notUtf8 => (build_400 ("Invalid UTF-8 string"), [])
  | .badJson m => (build_400 ("Invalid JSON string: " ++ m), [])
  | .ok param =>
      match convert_param_to_host name param ttl clock with
      | .error _ => (build_500 "Failed to fetch system time", [])
      | .ok host =>
          match storeRes name host with
          | .error e => (build_500 e, [.storeItem name host])
          | .ok _ => ({ status := 202, body := .empty }, [.storeItem name host])

/-- `get_registration` from `src/server.rs`: query the store for the
service's live hosts and answer 200 with a `Registration` whose `env` is
the literal `"production"`; 500 on store fault. -/
def get_registration (queryRes : String → Except String (List Host))
    (name : String) : HttpResponse × List StoreCall :=
  match queryRes name with
  | .error e => (build_500 e, [.queryItems name])
  | .ok hosts =>
      ({ status := 200
         body := .registrationJson { service := name, env := "production", hosts := hosts } },
       [.queryItems name])

/-- The `for name in &d_req.resource_names` loop of `get_registration_v2`:
query each requested name in order, building one `ClusterLoadAssignment`
per name; the first store fault aborts the loop with that error
(the Rust closure `return`s `build_500` immediately). -/
def buildResources (queryRes : String → Except String (List Host)) :
    List String → Except String (List ClusterLoadAssignment)
  | [] => .ok []
  | name :: rest =>
      match queryRes name with
      | .error e => .error e
      | .ok hosts =>
          match buildResources queryRes rest with
          | .error e => .error e
          | .ok rs =>
              .ok ({ type_url := EDS_TYPE_URL
                     cluster_name := name
                     endpoints := hosts_to_locality_lb_endpoints hosts } :: rs)

/-- Store calls issued by the `get_registration_v2` loop: one `queryItems`
per requested name up to and including the first faulting one. -/
def queryCalls (queryRes : String → Except String (List Host)) :
    List String → List StoreCall
  | [] => []
  | name :: rest =>
      match queryRes name with
      | .error _ => [.queryItems name]
      | .ok _ => .queryItems name :: queryCalls queryRes rest

/-- `get_registration_v2` from `src/server.rs`: parse the discovery
request, query every requested service, and answer 200 with an
`EdsDiscoveryResponse` (fresh `version_info` from `Uuid::new_v4`, passed
here as the oracle `version`); 400 on parse failure, 500 on the first
store fault (whole batch aborted). -/
def get_registration_v2 (queryRes : String → Except String (List Host))
    (version : String) (body : ParseResult DiscoveryRequest) :
    HttpResponse × List StoreCall :=
  match body with
  | .notUtf8 => (build_400 ("Invalid UTF-8 string"), [])
  | .badJson m => (build_400 ("Invalid JSON string: " ++ m), [])
  | .ok dreq =>
      match buildResources queryRes dreq.resource_names with
      | .error e => (build_500 e, queryCalls queryRes dreq.resource_names)
      | .ok resources =>
          ({ status := 200
             body := .edsJson { version_info := version, resources := resources } },
           queryCalls queryRes dreq.resource_names)

/-- Digit accumulator of `u16::from_str` (`port_string.parse()` in
`delete_host`). -/
def digitsToNat (cs : List Char) : Nat :=
  cs.foldl (fun acc c => acc * 10 + (c.toNat - 48)) 0

/-- `str::parse::<u16>` on the port path segment: optional leading `'+'`,
then one or more ASCII digits whose value fits in 16 bits; anything else
fails. -/
def parseU16 (s : String) : Option Nat :=
  let cs := s.toList
  let cs := match cs with
    | '+' :: rest => rest
    | other => other
  if cs.isEmpty then none
  else if cs.all Char.isDigit then
    let v := digitsToNat cs
    if v < 2 ^ 16 then some v else none
  else none

/-- `delete_host` from `src/server.rs`: 400 if the port segment is not a
valid integer (checked before any store access), otherwise delete by
identity: 202 with empty body on a removed record, 400 with a
`HostNotFound` error body when absent, 500 on store fault. -/
def delete_host (deleteRes : String → String → Nat → Except String (Option Host))
    (name : String) (ip : String) (portString : String) :
    HttpResponse × List StoreCall :=
  match parseU16 portString with
  | none => (build_400 ("Given port is invalid as integer: " ++ portString), [])
  | some port =>
      match deleteRes name ip port with
      | .error e => (build_500 e, [.deleteItem name ip port])
      | .ok none =>
          ({ status := 400
             body := .errorJson { id := .HostNotFound, reason := "Not found the entry" } },
           [.deleteItem name ip port])
      | .ok (some _) =>
          ({ status := 202, body := .empty }, [.deleteItem name ip port])

/-- Drop an expected literal head from a character list
(the anchored literal part of a route regex); `none` when it does not
start with that literal. -/
def dropPre : List Char → List Char → Option (List Char)
  | [], cs => some cs
  | _ :: _, [] => none
  | p :: ps, c :: cs => if c = p then dropPre ps cs else none

/-- Split a character list at the first occurrence of `sep`, returning the
parts before and after; `none` when `sep` does not occur. -/
def splitOnce (sep : Char) : List Char → Option (List Char × List Char)
  | [] => none
  | c :: cs =>
      if c = sep then some ([], cs)
      else
        match splitOnce sep cs with
        | none => none
        | some (a, b) => some (c :: a, b)

/-- The GET/POST route regex `^/v1/registration/([^/]+)/?$` of
`src/server.rs`, as an executable matcher on the path's characters:
returns the captured service segment (non-empty, slash-free, optional
trailing slash). -/
def matchV1Reg (path : List Char) : Option String :=
  match dropPre (String.toList ("/v1/registration/")) path with
  | none => none
  | some cs =>
      let core := if cs.getLast? = some ('/') then cs.dropLast else cs
      if core = [] then none
      else if ('/') ∈ core then none
      else some (String.mk core)

/-- The DELETE route regex
`^/v1/registration/([^/]+)/([^/:]+):([^/:]+)/?$` of `src/server.rs`, as an
executable matcher: captures `(service, ip, port)` where the service
segment is non-empty and slash-free, and the ip and port segments are
non-empty and contain neither `'/'` nor `':'`. -/
def matchDeleteRe (path : List Char) : Option (String × String × String) :=
  match dropPre (String.toList ("/v1/registration/")) path with
  | none => none
  | some cs =>
      let core := if cs.getLast? = some ('/') then cs.dropLast else cs
      match splitOnce ('/') core with
      | none => none
      | some (a, rest) =>
          if a = [] then none
          else if ('/') ∈ rest then none
          else
            match splitOnce (':') rest with
            | none => none
            | some (b, c) =>
                if b = [] then none
                else if c = [] then none
                else if (':') ∈ c then none
                else some (String.mk a, String.mk b, String.mk c)

/-- HTTP methods as dispatched by `route` (`hyper::Method`); every method
other than GET, POST and DELETE falls into the wildcard arm. -/
inductive Method where
  | GET
  | POST
  | DELETE
  | OTHER (name : String)
  deriving DecidableEq, Repr

/-- The environment a request is handled in: the `Storage` backend's
behaviour on this request (oracles for its three operations and its fixed
TTL), the system clock, the generated version UUID, and the parse
outcomes of the request body under the two expected schemas. -/
structure Env where
  queryRes : String → Except String (List Host)
  storeRes : String → Host → Except String Unit
  deleteRes : String → String → Nat → Except String (Option Host)
  ttl : Nat
  clock : Clock
  version : String
  bodyReg : ParseResult RegistrationParam
  bodyDisc : ParseResult DiscoveryRequest

/-- `show_usage` from `src/server.rs`. -/
def show_usage : HttpResponse :=
  { status := 200
    body := .text ("GET /v1/registration/:service, POST /v1/registration/:service, DELETE /v1/registration/:service/:ip_address") }

/-- `check_health` from `src/server.rs`. -/
def check_health : HttpResponse :=
  { status := 200, body := .text ("ok") }

/-- `route_get_req` from `src/server.rs`. -/
def route_get_req (env : Env) (path : List Char) : HttpResponse × List StoreCall :=
  if path = "/".toList then (show_usage, [])
  else if path = "/hc".toList then (check_health, [])
  else
    match matchV1Reg path with
    | some svc => get_registration env.queryRes svc
    | none => (res_404, [])

/-- `route_post_req` from `src/server.rs`. -/
def route_post_req (env : Env) (path : List Char) : HttpResponse × List StoreCall :=
  if path = "/".toList then (show_usage, [])
  else if path = "/hc".toList then (check_health, [])
  else if path = "/v2/discovery:endpoints".toList then
    get_registration_v2 env.queryRes env.version env.bodyDisc
  else
    match matchV1Reg path with
    | some svc => register_hosts env.storeRes env.ttl env.clock svc env.bodyReg
    | none => (res_404, [])

/-- `route_delete_req` from `src/server.rs`.  Note it serves `/` and `/hc`
exactly like the GET and POST routers do. -/
def route_delete_req (env : Env) (path : List Char) : HttpResponse × List StoreCall :=
  if path = "/".toList then (show_usage, [])
  else if path = "/hc".toList then (check_health, [])
  else
    match matchDeleteRe path with
    | some (svc, ip, port) => delete_host env.deleteRes svc ip port
    | none => (res_404, [])

/-- `route` from `src/server.rs`: dispatch on the request method. -/
def route (env : Env) (m : Method) (path : List Char) : HttpResponse × List StoreCall :=
  match m with
  | .GET => route_get_req env path
  | .POST => route_post_req env path
  | .DELETE => route_delete_req env path
  | .OTHER _ => (res_404, [])

/-- Modelled from the spec: the backing in-memory state of the
`Storage` implementation (not in the visible source) — the
service→hosts mapping, kept as a flat list of records keyed by the
identity `(service, ip_address, port)`. -/
structure MemStore where
  hosts : List Host
  deriving DecidableEq, Repr

/-- Identity comparison of two host records:
`(service, ip_address, port)` per spec §4.2. -/
def sameIdentity (a b : Host) : Bool :=
  a.service == b.service && a.ip_address == b.ip_address && a.port == b.port

/-- Modelled from the spec: effect of one store call on the in-memory
state, given the backend's outcome for it — `store_item` upserts by
identity, `delete_item` removes the matching identity, `query_items` does
not mutate; a faulting operation "either fully applies or not at all",
so it leaves the state unchanged (spec §4.1 failure semantics). -/
def applyCall (storeRes : String → Host → Except String Unit)
    (deleteRes : String → String → Nat → Except String (Option Host))
    (st : MemStore) : StoreCall → MemStore
  | .queryItems _ => st
  | .storeItem svc h =>
      match storeRes svc h with
      | .error _ => st
      | .ok _ => ⟨h :: st.hosts.filter (fun x => !sameIdentity x h)⟩
  | .deleteItem svc ip port =>
      match deleteRes svc ip port with
      | .error _ => st
      | .ok _ =>
          ⟨st.hosts.filter
            (fun x => !(x.service == svc && x.ip_address == ip && x.port == port))⟩

/-- State of the store after a handler's sequence of calls. -/
def applyCalls (storeRes : String → Host → Except String Unit)
    (deleteRes : String → String → Nat → Except String (Option Host))
    (st : MemStore) (calls : List StoreCall) : MemStore :=
  calls.foldl (applyCall storeRes deleteRes) st

/-- The route table the specification documents (`spec.md` §6), written
from the spec's words for comparison against the code's `route`:
GET|POST `/` and `/hc`, GET|POST `/v1/registration/{service}`,
DELETE `/v1/registration/{service}/{ip}:{port}`,
POST `/v2/discovery:endpoints`. -/
def documentedRoute (m : Method) (path : List Char) : Bool :=
  match m with
  | .GET =>
      decide (path = "/".toList) || decide (path = "/hc".toList)
        || (matchV1Reg path).isSome
  | .POST =>
      decide (path = "/".toList) || decide (path = "/hc".toList)
        || decide (path = "/v2/discovery:endpoints".toList)
        || (matchV1Reg path).isSome
  | .DELETE => (matchDeleteRe path).isSome
  | .OTHER _ => false

/-- A concrete request environment used to instantiate the theorems:
an always-successful empty store, clock at epoch second 100, TTL 5. -/
def env0 : Env where
  queryRes := fun _ => .ok []
  storeRes := fun _ _ => .ok ()
  deleteRes := fun _ _ _ => .ok none
  ttl := 5
  clock := { nowEpochSecs := .ok 100, nowFormatted := "1970-01-01 00:01:40+00:00" }
  version := "v0"
  bodyReg := .ok { ip := "10.0.0.1", port := 8080, revision := "r1", tags := [] }
  bodyDisc := .ok { resource_names := ["web"] }

/-- Whether a backend operation outcome is a fault. -/
def exceptIsErr {ε α : Type} : Except ε α → Bool
  | .error _ => true
  | .ok _ => false

/-- The host list of a successful query outcome (empty on a fault); used
only to describe the result of an already-successful lookup. -/
def okOr {ε : Type} : Except ε (List Host) → List Host
  | .ok v => v
  | .error _ => []

/-- A concrete registration body used to instantiate theorems. -/
def p0 : RegistrationParam :=
  { ip := "10.0.0.1", port := 8080, revision := "r1", tags := [] }

/-- A concrete host record used to instantiate theorems. -/
def h0 : Host :=
  { ip_address := "10.0.0.1", port := 8080
    last_check_in := "1970-01-01 00:01:40+00:00", expire_time := 105
    revision := "r1", service := "web", tags := [] }

/-- A clock whose epoch reading fails. -/
def clockErr : Clock :=
  { nowEpochSecs := .error (), nowFormatted := "1970-01-01 00:00:00+00:00" }

/-- A backend whose store operation always faults. -/
def storeErr : String → Host → Except String Unit :=
  fun _ _ => .error ("store fault")

/-- A backend whose delete operation always faults. -/
def deleteErr : String → String → Nat → Except String (Option Host) :=
  fun _ _ _ => .error ("store fault")

/-- A backend whose delete operation finds and removes `h0`. -/
def dSome : String → String → Nat → Except String (Option Host) :=
  fun _ _ _ => .ok (some h0)

/-- A backend whose query operation always faults. -/
def qErr : String → Except String (List Host) :=
  fun _ => .error ("store fault")

/-- A backend whose query operation always succeeds with no hosts. -/
def q0 : String → Except String (List Host) :=
  fun _ => .ok []

/-- A concrete non-empty store state. -/
def st0 : MemStore := ⟨[h0]⟩

/-- The call list of a registration whose body parsed and whose clock
worked: exactly one `store_item` with the converted host, whatever the
store then answers. -/
theorem register_hosts_calls (storeRes : String → Host → Except String Unit)
    (ttl : Nat) (clock : Clock) (name : String) (p : RegistrationParam) (host : Host)
    (hconv : convert_param_to_host name p ttl clock = .ok host) :
    (register_hosts storeRes ttl clock name (.ok p)).2 = [.storeItem name host] := by
  simp only [register_hosts, hconv]
  cases hsr : storeRes name host <;> simp [hsr]

/-- C1: for every successfully parsed registration request handled under a
working clock, the handler's single `store_item` call stores a host whose
`expire_time` is the epoch seconds at the call plus the store-wide TTL
constant; and the caller-supplied body — which has no TTL-like field —
has no influence on `expire_time` (the computed expiry is the same for
any two bodies `p`, `p'`). -/
theorem c1_store_expire_time_is_now_plus_ttl
    (storeRes : String → Host → Except String Unit) (ttl : Nat) (clock : Clock)
    (name : String) (p p' : RegistrationParam) (secs : Nat)
    (hclk : clock.nowEpochSecs = .ok secs) (hov : secs + ttl < 2 ^ 64) :
    (register_hosts storeRes ttl clock name (.ok p)).2
      = [.storeItem name
          { ip_address := p.ip, port := p.port
            last_check_in := clock.nowFormatted, expire_time := secs + ttl
            revision := p.revision, service := name, tags := p.tags }]
    ∧ (convert_param_to_host name p ttl clock).map Host.expire_time
        = (convert_param_to_host name p' ttl clock).map Host.expire_time := by
  have hconv : ∀ q : RegistrationParam,
      convert_param_to_host name q ttl clock
        = .ok { ip_address := q.ip, port := q.port
                last_check_in := clock.nowFormatted, expire_time := secs + ttl
                revision := q.revision, service := name, tags := q.tags } := by
    intro q
    have hov' : secs + ttl < 18446744073709551616 := by
      calc secs + ttl < 2 ^ 64 := hov
        _ = 18446744073709551616 := by norm_num
    simp [convert_param_to_host, hclk, Nat.mod_eq_of_lt hov']
  exact ⟨register_hosts_calls _ _ _ _ _ _ (hconv p), by rw [hconv p, hconv p']; rfl⟩

/-- Witness for C1 at a concrete request (epoch second 100, TTL 5). -/
theorem c1_store_expire_time_is_now_plus_ttl_witness :
    env0.clock.nowEpochSecs = .ok 100 ∧ 100 + env0.ttl < 2 ^ 64 ∧
    ((register_hosts env0.storeRes env0.ttl env0.clock ("web") (.ok p0)).2
        = [.storeItem ("web")
            { ip_address := p0.ip, port := p0.port
              last_check_in := env0.clock.nowFormatted, expire_time := 100 + env0.ttl
              revision := p0.revision, service := "web", tags := p0.tags }]
      ∧ (convert_param_to_host ("web") p0 env0.ttl env0.clock).map Host.expire_time
          = (convert_param_to_host ("web") p0 env0.ttl env0.clock).map Host.expire_time) :=
  ⟨rfl, by decide,
    c1_store_expire_time_is_now_plus_ttl env0.storeRes env0.ttl env0.clock
      ("web") p0 p0 100 rfl (by decide)⟩

/-- C4: when the registration body parses but the current time cannot be
obtained, the handler answers 500 and never calls `store_item`. -/
theorem c4_time_fault_500_no_store
    (storeRes : String → Host → Except String Unit) (ttl : Nat) (clock : Clock)
    (name : String) (p : RegistrationParam)
    (hclk : clock.nowEpochSecs = .error ()) :
    (register_hosts storeRes ttl clock name (.ok p)).1
        = build_500 ("Failed to fetch system time")
    ∧ (register_hosts storeRes ttl clock name (.ok p)).2 = [] := by
  have hconv : convert_param_to_host name p ttl clock = .error () := by
    simp [convert_param_to_host, hclk]
  simp [register_hosts, hconv]

/-- Witness for C4 at a concrete request with a failing clock. -/
theorem c4_time_fault_500_no_store_witness :
    clockErr.nowEpochSecs = .error () ∧
    ((register_hosts storeErr 5 clockErr ("web") (.ok p0)).1
        = build_500 ("Failed to fetch system time")
     ∧ (register_hosts storeErr 5 clockErr ("web") (.ok p0)).2 = []) :=
  ⟨rfl, c4_time_fault_500_no_store storeErr 5 clockErr ("web") p0 rfl⟩

/-- C5: a POST body that is not valid UTF-8 or not valid JSON of the
expected shape makes both POST handlers answer 400 without any store
call. -/
theorem c5_malformed_body_400_no_store
    (storeRes : String → Host → Except String Unit)
    (queryRes : String → Except String (List Host))
    (ttl : Nat) (clock : Clock) (version name msg : String) :
    register_hosts storeRes ttl clock name .notUtf8
        = (build_400 ("Invalid UTF-8 string"), [])
    ∧ register_hosts storeRes ttl clock name (.badJson msg)
        = (build_400 ("Invalid JSON string: " ++ msg), [])
    ∧ get_registration_v2 queryRes version .notUtf8
        = (build_400 ("Invalid UTF-8 string"), [])
    ∧ get_registration_v2 queryRes version (.badJson msg)
        = (build_400 ("Invalid JSON string: " ++ msg), []) :=
  ⟨rfl, rfl, rfl, rfl⟩

/-- C9: a successful v1 registration query always answers 200 with a
`Registration` whose `env` field is the literal `"production"`. -/
theorem c9_env_always_production
    (queryRes : String → Except String (List Host)) (name : String)
    (hosts : List Host) (h : queryRes name = .ok hosts) :
    (get_registration queryRes name).1
      = { status := 200
          body := .registrationJson
            { service := name, env := "production", hosts := hosts } } := by
  simp [get_registration, h]

/-- Witness for C9 at a concrete service with an empty host list. -/
theorem c9_env_always_production_witness :
    q0 ("web") = .ok [] ∧
    (get_registration q0 ("web")).1
      = { status := 200
          body := .registrationJson
            { service := "web", env := "production", hosts := [] } } :=
  ⟨rfl, c9_env_always_production q0 ("web") [] rfl⟩

/-- C3: a v1 delete answers 202 with empty body when a record was removed,
400 with a `HostNotFound` error body when the identity was absent, 400
when the port segment is not a valid integer, and 500 on a store fault. -/
theorem c3_delete_statuses
    (deleteRes : String → String → Nat → Except String (Option Host))
    (name ip portString : String) :
    (parseU16 portString = none →
      (delete_host deleteRes name ip portString).1
        = build_400 ("Given port is invalid as integer: " ++ portString))
    ∧ ∀ port : Nat, parseU16 portString = some port →
        ((∀ h : Host, deleteRes name ip port = .ok (some h) →
            (delete_host deleteRes name ip portString).1
              = { status := 202, body := .empty })
         ∧ (deleteRes name ip port = .ok none →
            (delete_host deleteRes name ip portString).1
              = { status := 400
                  body := .errorJson
                    { id := .HostNotFound, reason := "Not found the entry" } })
         ∧ ∀ e : String, deleteRes name ip port = .error e →
            (delete_host deleteRes name ip portString).1 = build_500 e) := by
  constructor
  · intro hparse
    simp [delete_host, hparse]
  · intro port hparse
    refine ⟨?_, ?_, ?_⟩
    · intro h hdel
      simp [delete_host, hparse, hdel]
    · intro hdel
      simp [delete_host, hparse, hdel]
    · intro e hdel
      simp [delete_host, hparse, hdel]

/-- Witness for C3: all four delete outcomes at concrete requests. -/
theorem c3_delete_statuses_witness :
    ((delete_host dSome ("web") ("10.0.0.1") ("abc")).1
        = build_400 ("Given port is invalid as integer: " ++ "abc"))
    ∧ ((delete_host dSome ("web") ("10.0.0.1") ("8080")).1
        = { status := 202, body := .empty })
    ∧ ((delete_host env0.deleteRes ("web") ("10.0.0.1") ("8080")).1
        = { status := 400
            body := .errorJson
              { id := .HostNotFound, reason := "Not found the entry" } })
    ∧ ((delete_host deleteErr ("web") ("10.0.0.1") ("8080")).1
        = build_500 ("store fault")) :=
  ⟨(c3_delete_statuses dSome ("web") ("10.0.0.1") ("abc")).1 rfl,
   (((c3_delete_statuses dSome ("web") ("10.0.0.1") ("8080")).2 8080 rfl).1) h0 rfl,
   (((c3_delete_statuses env0.deleteRes ("web") ("10.0.0.1") ("8080")).2 8080 rfl).2.1) rfl,
   (((c3_delete_statuses deleteErr ("web") ("10.0.0.1") ("8080")).2 8080 rfl).2.2) ("store fault") rfl⟩

/-- If every requested name queries successfully, the
`get_registration_v2` loop builds one assignment per requested name, in
order, each carrying the requested name as `cluster_name` and the
translation of its (possibly empty) host list. -/
theorem buildResources_all_ok (q : String → Except String (List Host)) :
    ∀ names : List String, (∀ n ∈ names, exceptIsErr (q n) = false) →
      buildResources q names
        = .ok (names.map fun n =>
            { type_url := EDS_TYPE_URL, cluster_name := n
              endpoints := hosts_to_locality_lb_endpoints (okOr (q n)) })
  | [], _ => rfl
  | name :: rest, hall => by
      have hname : exceptIsErr (q name) = false := hall name (by simp)
      have hrest := buildResources_all_ok q rest fun n hn => hall n (by simp [hn])
      cases hq : q name with
      | error e => rw [hq] at hname; simp [exceptIsErr] at hname
      | ok hosts =>
          simp [buildResources, hq, hrest, okOr, List.map]

/-- If some requested name's query faults, the `get_registration_v2` loop
aborts with that fault. -/
theorem buildResources_any_err (q : String → Except String (List Host)) :
    ∀ names : List String, (∃ n ∈ names, exceptIsErr (q n) = true) →
      ∃ e, buildResources q names = .error e
  | [], h => absurd h (by simp)
  | name :: rest, h => by
      cases hq : q name with
      | error e => exact ⟨e, by simp [buildResources, hq]⟩
      | ok hosts =>
          have : ∃ n ∈ rest, exceptIsErr (q n) = true := by
            rcases h with ⟨n, hn, herr⟩
            rcases List.mem_cons.mp hn with hn1 | hn2
            · subst hn1; rw [hq] at herr; simp [exceptIsErr] at herr
            · exact ⟨n, hn2, herr⟩
          rcases buildResources_any_err q rest this with ⟨e, he⟩
          exact ⟨e, by simp [buildResources, hq, he]⟩

/-- Whether a response body is a (possibly partial) list of assignments. -/
def bodyIsEds : RespBody → Bool
  | .edsJson _ => true
  | _ => false

/-- C2: a batched discovery request answers 500 as soon as any requested
name's lookup faults — no list of assignments is returned for the batch —
and 200 when every lookup succeeds. -/
theorem c2_batch_aborts_on_any_fault
    (queryRes : String → Except String (List Host)) (version : String)
    (names : List String) :
    ((get_registration_v2 queryRes version (.ok ⟨names⟩)).1.status
        = cond (names.any fun n => exceptIsErr (queryRes n)) 500 200)
    ∧ ((names.any fun n => exceptIsErr (queryRes n)) = true →
        bodyIsEds ((get_registration_v2 queryRes version (.ok ⟨names⟩)).1.body)
          = false) := by
  cases hany : names.any fun n => exceptIsErr (queryRes n) with
  | false =>
      have hall : ∀ n ∈ names, exceptIsErr (queryRes n) = false := by
        intro n hn
        by_contra hc
        have ht : exceptIsErr (queryRes n) = true := by
          cases hb : exceptIsErr (queryRes n)
          · exact absurd hb hc
          · rfl
        have : (names.any fun n => exceptIsErr (queryRes n)) = true :=
          List.any_eq_true.mpr ⟨n, hn, ht⟩
        rw [hany] at this
        exact Bool.false_ne_true this
      have h := buildResources_all_ok queryRes names hall
      constructor
      · simp [get_registration_v2, h]
      · intro hcontra
        exact absurd hcontra Bool.false_ne_true
  | true =>
      rcases buildResources_any_err queryRes names
          (by rcases List.any_eq_true.mp hany with ⟨n, hn, ht⟩; exact ⟨n, hn, ht⟩)
        with ⟨e, he⟩
      constructor
      · simp [get_registration_v2, he, build_500]
      · intro _
        simp [get_registration_v2, he, build_500, bodyIsEds]

/-- Witness for C2: a one-element batch whose single lookup faults. -/
theorem c2_batch_aborts_on_any_fault_witness :
    ((get_registration_v2 qErr ("v") (.ok ⟨["web"]⟩)).1.status = 500)
    ∧ bodyIsEds ((get_registration_v2 qErr ("v") (.ok ⟨["web"]⟩)).1.body)
        = false :=
  ⟨(c2_batch_aborts_on_any_fault qErr ("v") ["web"]).1.trans rfl,
   (c2_batch_aborts_on_any_fault qErr ("v") ["web"]).2 rfl⟩

/-- C6: when every requested lookup succeeds, the discovery response is a
200 carrying exactly one assignment per requested name, in order, with
`cluster_name` the requested name; a name whose host list is empty still
yields its assignment, whose endpoint list is the translation of the
empty host list — which is empty — never an error. -/
theorem c6_empty_service_valid_assignment
    (queryRes : String → Except String (List Host)) (version : String)
    (names : List String)
    (hall : ∀ n ∈ names, exceptIsErr (queryRes n) = false) :
    (get_registration_v2 queryRes version (.ok ⟨names⟩)).1
      = { status := 200
          body := .edsJson
            { version_info := version
              resources := names.map fun n =>
                { type_url := EDS_TYPE_URL, cluster_name := n
                  endpoints := hosts_to_locality_lb_endpoints (okOr (queryRes n)) } } }
    ∧ hosts_to_locality_lb_endpoints [] = [] := by
  have h := buildResources_all_ok queryRes names hall
  exact ⟨by simp [get_registration_v2, h], rfl⟩

/-- Witness for C6: one requested name whose live host list is empty. -/
theorem c6_empty_service_valid_assignment_witness :
    (get_registration_v2 q0 ("v") (.ok ⟨["web"]⟩)).1
      = { status := 200
          body := .edsJson
            { version_info := "v"
              resources :=
                [{ type_url := EDS_TYPE_URL, cluster_name := "web"
                   endpoints := [] }] } }
    ∧ hosts_to_locality_lb_endpoints [] = [] :=
  c6_empty_service_valid_assignment q0 ("v") ["web"] (fun _ _ => rfl)

/-- C7: no handler fault partially applies a mutation.  Whatever store
state the backend holds, a registration that fails on a malformed body,
on a time-source fault, or on a store fault, and a deletion that fails on
an invalid port or a store fault, leave the state exactly as it was; in
particular the invalid-port check precedes any `delete_item` call and the
time-source check precedes any `store_item` call (those failure paths
make no store call at all). -/
theorem c7_no_partial_mutation
    (storeRes : String → Host → Except String Unit)
    (deleteRes : String → String → Nat → Except String (Option Host))
    (ttl : Nat) (clock : Clock) (name msg ip portString : String)
    (p : RegistrationParam) (st : MemStore) :
    applyCalls storeRes deleteRes st
        (register_hosts storeRes ttl clock name .notUtf8).2 = st
    ∧ applyCalls storeRes deleteRes st
        (register_hosts storeRes ttl clock name (.badJson msg)).2 = st
    ∧ (clock.nowEpochSecs = .error () →
        applyCalls storeRes deleteRes st
          (register_hosts storeRes ttl clock name (.ok p)).2 = st)
    ∧ ((∀ svc h, exceptIsErr (storeRes svc h) = true) →
        applyCalls storeRes deleteRes st
          (register_hosts storeRes ttl clock name (.ok p)).2 = st)
    ∧ (parseU16 portString = none →
        applyCalls storeRes deleteRes st
          (delete_host deleteRes name ip portString).2 = st)
    ∧ ((∀ svc i pt, exceptIsErr (deleteRes svc i pt) = true) →
        applyCalls storeRes deleteRes st
          (delete_host deleteRes name ip portString).2 = st) := by
  refine ⟨rfl, rfl, ?_, ?_, ?_, ?_⟩
  · intro hclk
    have hconv : convert_param_to_host name p ttl clock = .error () := by
      simp [convert_param_to_host, hclk]
    simp [register_hosts, hconv, applyCalls]
  · intro hsf
    cases hclk : clock.nowEpochSecs with
    | error e =>
        cases e
        have hconv : convert_param_to_host name p ttl clock = .error () := by
          simp [convert_param_to_host, hclk]
        simp [register_hosts, hconv, applyCalls]
    | ok secs =>
        have hconv : convert_param_to_host name p ttl clock
            = .ok { ip_address := p.ip, port := p.port
                    last_check_in := clock.nowFormatted
                    expire_time := (secs + ttl) % 2 ^ 64
                    revision := p.revision, service := name, tags := p.tags } := by
          simp [convert_param_to_host, hclk]
        set host := ({ ip_address := p.ip, port := p.port
                       last_check_in := clock.nowFormatted
                       expire_time := (secs + ttl) % 2 ^ 64
                       revision := p.revision, service := name
                       tags := p.tags } : Host)
        cases hsr : storeRes name host with
        | error e =>
            simp [register_hosts, hconv, hsr, applyCalls, applyCall]
        | ok u =>
            have := hsf name host
            rw [hsr] at this
            simp [exceptIsErr] at this
  · intro hp
    simp [delete_host, hp, applyCalls]
  · intro hdf
    cases hp : parseU16 portString with
    | none => simp [delete_host, hp, applyCalls]
    | some port =>
        cases hdr : deleteRes name ip port with
        | error e =>
            simp [delete_host, hp, hdr, applyCalls, applyCall]
        | ok v =>
            have := hdf name ip port
            rw [hdr] at this
            simp [exceptIsErr] at this

/-- Witness for C7: every failure path at a concrete request against a
non-empty store (failing clock, always-faulting backend, non-numeric
port). -/
theorem c7_no_partial_mutation_witness :
    applyCalls storeErr deleteErr st0
        (register_hosts storeErr 5 clockErr ("web") .notUtf8).2 = st0
    ∧ applyCalls storeErr deleteErr st0
        (register_hosts storeErr 5 clockErr ("web") (.badJson ("m"))).2 = st0
    ∧ applyCalls storeErr deleteErr st0
        (register_hosts storeErr 5 clockErr ("web") (.ok p0)).2 = st0
    ∧ applyCalls storeErr deleteErr st0
        (register_hosts storeErr 5 clockErr ("web") (.ok p0)).2 = st0
    ∧ applyCalls storeErr deleteErr st0
        (delete_host deleteErr ("web") ("10.0.0.1") ("abc")).2 = st0
    ∧ applyCalls storeErr deleteErr st0
        (delete_host deleteErr ("web") ("10.0.0.1") ("8080")).2 = st0 := by
  have h := c7_no_partial_mutation storeErr deleteErr 5 clockErr
    ("web") ("m") ("10.0.0.1") ("8080") p0 st0
  have h' := c7_no_partial_mutation storeErr deleteErr 5 clockErr
    ("web") ("m") ("10.0.0.1") ("abc") p0 st0
  exact ⟨h.1, h.2.1, h.2.2.1 rfl, h.2.2.2.1 (fun _ _ => rfl),
    h'.2.2.2.2.1 rfl, h.2.2.2.2.2 (fun _ _ _ => rfl)⟩

/-- Dropping a literal from a list that starts with it leaves the rest. -/
theorem dropPre_self_append : ∀ ps cs : List Char, dropPre ps (ps ++ cs) = some cs
  | [], _ => rfl
  | p :: ps, cs => by simp [dropPre, dropPre_self_append ps cs]

/-- Splitting at a separator that first occurs between `xs` and `ys`. -/
theorem splitOnce_not_mem_append (sep : Char) :
    ∀ xs ys : List Char, sep ∉ xs → splitOnce sep (xs ++ sep :: ys) = some (xs, ys)
  | [], ys, _ => by simp [splitOnce]
  | x :: xs, ys, h => by
      have hx : ¬x = sep := fun he => h (he ▸ List.mem_cons_self x xs)
      have hrec := splitOnce_not_mem_append sep xs ys
        (fun hm => h (List.mem_cons_of_mem x hm))
      simp [splitOnce, hx, hrec]

/-- When the separator already occurs inside `xs`, splitting
`xs ++ sep :: ys` cuts inside `xs` and the separator survives in the
right part. -/
theorem splitOnce_mem_first (sep : Char) :
    ∀ xs ys : List Char, sep ∈ xs →
      ∃ b c, splitOnce sep (xs ++ sep :: ys) = some (b, c) ∧ sep ∈ c
  | [], _, h => absurd h (List.not_mem_nil sep)
  | x :: xs, ys, h => by
      by_cases hx : x = sep
      · subst hx
        exact ⟨[], xs ++ x :: ys, by simp [splitOnce], by simp⟩
      · have hmem : sep ∈ xs := by
          rcases List.mem_cons.mp h with h1 | h2
          · exact absurd h1.symm hx
          · exact h2
        rcases splitOnce_mem_first sep xs ys hmem with ⟨b, c, hbc, hc⟩
        refine ⟨x :: b, c, ?_, hc⟩
        simp [splitOnce, hx, hbc]

/-- The last element of a list cannot be a value the list does not
contain. -/
theorem getLast?_ne_of_not_mem {l : List Char} {c : Char} (h : c ∉ l) :
    l.getLast? ≠ some c := by
  intro hc
  have hmem : c ∈ l.getLast? := Option.mem_def.mpr hc
  rcases List.mem_getLast?_eq_getLast hmem with ⟨hne, heq⟩
  exact h (heq ▸ List.getLast_mem hne)

/-- The DELETE route regex rejects every path whose ip segment contains a
colon: the combined `{ip}:{port}` text then holds two colons, but the
pattern's ip and port groups are both colon-free. -/
theorem matchDeleteRe_colon_in_ip (svc ip port : List Char)
    (hsvc_ne : svc ≠ []) (hsvc : ('/') ∉ svc)
    (hip_colon : (':') ∈ ip)
    (hip : ('/') ∉ ip)
    (hport_ne : port ≠ []) (hport : ('/') ∉ port) :
    matchDeleteRe (("/v1/registration/").toList
        ++ (svc ++ (('/') :: (ip ++ ((':') :: port))))) = none := by
  have hpre := dropPre_self_append (("/v1/registration/").toList)
      (svc ++ (('/') :: (ip ++ ((':') :: port))))
  have hlast : (svc ++ (('/') :: (ip ++ ((':') :: port)))).getLast?
      = port.getLast? := by
    rw [List.getLast?_append_of_ne_nil _ (by simp)]
    rw [show (('/') :: (ip ++ ((':') :: port)))
          = ((('/') :: ip) ++ ((':') :: port)) by simp]
    rw [List.getLast?_append_of_ne_nil _ (by simp)]
    rw [show (((':') : Char) :: port) = ([(':')] ++ port) by simp]
    rw [List.getLast?_append_of_ne_nil _ hport_ne]
  have hne : ¬((svc ++ (('/') :: (ip ++ ((':') :: port)))).getLast? = some ('/')) := by
    rw [hlast]
    exact getLast?_ne_of_not_mem hport
  have hsplit1 := splitOnce_not_mem_append ('/') svc (ip ++ ((':') :: port)) hsvc
  have hnoslash : ¬(('/') ∈ ip ++ ((':') :: port)) := by
    intro hm
    rcases List.mem_append.mp hm with hm1 | hm2
    · exact hip hm1
    · rcases List.mem_cons.mp hm2 with hm3 | hm4
      · exact absurd hm3 (by decide)
      · exact hport hm4
  rcases splitOnce_mem_first (':') ip port hip_colon with ⟨b, c, hbc, hc⟩
  simp only [matchDeleteRe, hpre, hne, if_false, hsplit1, hsvc_ne, hnoslash, hbc]
  by_cases hb : b = []
  · simp [hb]
  · have hcne : c ≠ [] := List.ne_nil_of_mem hc
    simp [hb, hcne, hc]

/-- C10: a DELETE request whose ip path segment contains a colon (an IPv6
literal, say) matches no route: the response is 404 and `delete_item` is
never called, so such a registered host cannot be deleted over HTTP. -/
theorem c10_colon_ip_delete_404 (env : Env) (svc ip port : List Char)
    (hsvc_ne : svc ≠ []) (hsvc : ('/') ∉ svc)
    (hip_colon : (':') ∈ ip) (hip : ('/') ∉ ip)
    (hport_ne : port ≠ []) (hport : ('/') ∉ port) :
    route env .DELETE (("/v1/registration/").toList
        ++ (svc ++ (('/') :: (ip ++ ((':') :: port))))) = (res_404, []) := by
  have hm := matchDeleteRe_colon_in_ip svc ip port
    hsvc_ne hsvc hip_colon hip hport_ne hport
  have hlen : (("/v1/registration/").toList).length = 17 := rfl
  have hp1 : ("/v1/registration/").toList
      ++ (svc ++ (('/') :: (ip ++ ((':') :: port)))) ≠ ("/").toList := by
    intro h
    have hl := congrArg List.length h
    have hone : ((("/").toList).length) = 1 := rfl
    simp [List.length_append, hlen, hone] at hl
  have hp2 : ("/v1/registration/").toList
      ++ (svc ++ (('/') :: (ip ++ ((':') :: port)))) ≠ ("/hc").toList := by
    intro h
    have hl := congrArg List.length h
    have hthree : ((("/hc").toList).length) = 3 := rfl
    simp [List.length_append, hlen, hthree] at hl
  simp at hm hp1 hp2
  simp [route, route_delete_req, hp1, hp2, hm]

/-- Witness for C10: deleting `::1:8080` under service `web` is a 404 with
no store call. -/
theorem c10_colon_ip_delete_404_witness :
    route env0 .DELETE (("/v1/registration/").toList
        ++ ((("web").toList
          ++ (('/') :: ((("::1").toList ++ ((':') :: (("8080").toList))))))))
      = (res_404, []) :=
  c10_colon_ip_delete_404 env0 (("web").toList) (("::1").toList) (("8080").toList)
    (by decide) (by decide) (by decide) (by decide) (by decide) (by decide)

/-- C8 counterexample: `DELETE /` is not among the documented routes, yet
the server answers it 200 (the usage text), not 404 — `route_delete_req`
serves `/` and `/hc` exactly like the GET and POST routers do. -/
theorem c8_counterexample_delete_root :
    documentedRoute .DELETE (("/").toList) = false
    ∧ (route env0 .DELETE (("/").toList)).1.status = 200
    ∧ ¬((route env0 .DELETE (("/").toList)).1.status = 404) :=
  ⟨rfl, rfl, by decide⟩

/-- C8 (amended): every request whose method/path pair is not one of the
documented routes answers 404 — except `DELETE /` and `DELETE /hc`, which
answer 200 like their GET/POST counterparts. -/
theorem c8_unmatched_404 (env : Env) (m : Method) (path : List Char)
    (hdoc : documentedRoute m path = false)
    (hnotdel : m = .DELETE → path ≠ ("/").toList ∧ path ≠ ("/hc").toList) :
    (route env m path).1.status = 404 := by
  cases m with
  | GET =>
      simp only [documentedRoute, Bool.or_eq_false_iff,
        decide_eq_false_iff_not] at hdoc
      obtain ⟨⟨h1, h2⟩, h3⟩ := hdoc
      have hm : matchV1Reg path = none := by
        cases hmv : matchV1Reg path with
        | none => rfl
        | some v => rw [hmv] at h3; simp at h3
      simp at h1 h2
      simp [route, route_get_req, h1, h2, hm, res_404]
  | POST =>
      simp only [documentedRoute, Bool.or_eq_false_iff,
        decide_eq_false_iff_not] at hdoc
      obtain ⟨⟨⟨h1, h2⟩, h4⟩, h3⟩ := hdoc
      have hm : matchV1Reg path = none := by
        cases hmv : matchV1Reg path with
        | none => rfl
        | some v => rw [hmv] at h3; simp at h3
      simp at h1 h2 h4
      simp [route, route_post_req, h1, h2, h4, hm, res_404]
  | DELETE =>
      simp only [documentedRoute] at hdoc
      obtain ⟨hp1, hp2⟩ := hnotdel rfl
      have hm : matchDeleteRe path = none := by
        cases hmv : matchDeleteRe path with
        | none => rfl
        | some v => rw [hmv] at hdoc; simp at hdoc
      simp at hp1 hp2
      simp [route, route_delete_req, hp1, hp2, hm, res_404]
  | OTHER s => rfl

/-- Witness for C8 (amended): `GET /nope` is undocumented and answers
404. -/
theorem c8_unmatched_404_witness :
    documentedRoute .GET (("/nope").toList) = false
    ∧ (route env0 .GET (("/nope").toList)).1.status = 404 :=
  ⟨by decide,
   c8_unmatched_404 env0 .GET (("/nope").toList) (by decide) (by decide)⟩

end SDS
